import Mathlib

/-!
Shallow embedding of the inbound-message automated-response engine of the
`social_media` repository: the sector classifier, the per-sector reply
template bank, the webhook dispatchers, and the webhook verification gate,
translated from `src/controllers/whatsappController.js` and
`src/controllers/webhookController.js`.  Numbers model HTTP status codes;
strings model JavaScript strings; `Option` models possibly-`undefined`
values; external calls are modelled by an explicit event trace.
-/

set_option linter.unusedVariables false

/-- Character-wise lowercasing, modelling `String.prototype.toLowerCase`
on the (ASCII) keyword alphabet the controllers compare against. -/
def jsToLower (s : String) : String := String.mk (s.data.map Char.toLower)

/-- Whether `pat` occurs as a contiguous sublist of the second list. -/
def includesAux (pat : List Char) : List Char → Bool
  | [] => pat.isEmpty
  | c :: rest => pat.isPrefixOf (c :: rest) || includesAux pat rest

/-- Substring containment, modelling `String.prototype.includes`. -/
def jsIncludes (s pat : String) : Bool := includesAux pat.data s.data

/-- Embeds `WhatsAppController.determineSector` from the source: the fixed
keyword cascade with fallback sector `"hospitality"`. -/
def WhatsAppController.determineSector (messageText : String) : String :=
  let text := jsToLower messageText
  if jsIncludes text "catering" || jsIncludes text "school" ||
      jsIncludes text "lunch" || jsIncludes text "menu" then
    "education"
  else if jsIncludes text "cafe" || jsIncludes text "coffee" ||
      jsIncludes text "reservation" || jsIncludes text "table" then
    "hospitality"
  else if jsIncludes text "investment" || jsIncludes text "portfolio" ||
      jsIncludes text "meeting" || jsIncludes text "financial" then
    "investment"
  else
    "hospitality"

/-- Embeds `WebhookController.determineSector` from the source (its body is
character-for-character the same cascade as the WhatsApp controller's). -/
def WebhookController.determineSector (messageText : String) : String :=
  let text := jsToLower messageText
  if jsIncludes text "catering" || jsIncludes text "school" ||
      jsIncludes text "lunch" || jsIncludes text "menu" then
    "education"
  else if jsIncludes text "cafe" || jsIncludes text "coffee" ||
      jsIncludes text "reservation" || jsIncludes text "table" then
    "hospitality"
  else if jsIncludes text "investment" || jsIncludes text "portfolio" ||
      jsIncludes text "meeting" || jsIncludes text "financial" then
    "investment"
  else
    "hospitality"

/-- Embeds `WhatsAppController.generateEducationResponse` from the source. -/
def WhatsAppController.generateEducationResponse (messageText : String) : String :=
  if jsIncludes messageText "menu" || jsIncludes messageText "food" then
    "üçΩÔ∏è *School Catering Menu Update*\n\nToday's healthy lunch options:\n‚Ä¢ Grilled chicken with vegetables\n‚Ä¢ Vegetarian pasta\n‚Ä¢ Fresh fruit salad\n\nTo place an order, reply with \"ORDER\" followed by your choice. Delivery time: 12:00 PM."
  else if jsIncludes messageText "order" || jsIncludes messageText "book" then
    "üìã *Order Confirmation*\n\nThank you for your catering order! We've received your request and will confirm within 30 minutes.\n\n*Order Details:*\n- Delivery Time: 12:00 PM\n- Location: School Cafeteria\n- Payment: Cash on delivery\n\nFor any changes, please contact us immediately."
  else if jsIncludes messageText "delivery" || jsIncludes messageText "time" then
    "‚è∞ *Delivery Information*\n\nOur delivery schedule:\n‚Ä¢ Breakfast: 7:30 AM - 8:00 AM\n‚Ä¢ Lunch: 12:00 PM - 12:30 PM\n‚Ä¢ Snacks: 3:00 PM - 3:15 PM\n\nFor special dietary requirements, please inform us 24 hours in advance."
  else
    "üéì *School Catering Services*\n\nWelcome! We provide healthy, nutritious meals for students.\n\nQuick options:\n‚Ä¢ Reply \"MENU\" for today's options\n‚Ä¢ Reply \"ORDER\" to place an order\n‚Ä¢ Reply \"DELIVERY\" for timing info\n‚Ä¢ Reply \"HELP\" for assistance"

/-- Embeds `WhatsAppController.generateHospitalityResponse` from the source. -/
def WhatsAppController.generateHospitalityResponse (messageText : String) : String :=
  if jsIncludes messageText "reservation" || jsIncludes messageText "table" ||
      jsIncludes messageText "book" then
    "‚òï *Hawana Cafe Reservation*\n\nThank you for your interest! To make a reservation:\n\n*Available Times:*\n‚Ä¢ Breakfast: 7:00 AM - 11:00 AM\n‚Ä¢ Lunch: 12:00 PM - 3:00 PM\n‚Ä¢ Dinner: 6:00 PM - 10:00 PM\n\n*Special Offers:*\n‚Ä¢ 20% off for groups of 4+\n‚Ä¢ Free dessert on birthdays\n‚Ä¢ Happy Hour: 4:00 PM - 6:00 PM\n\nReply with your preferred date, time, and party size."
  else if jsIncludes messageText "menu" || jsIncludes messageText "food" ||
      jsIncludes messageText "coffee" then
    "üç∞ *Hawana Cafe Menu*\n\n*Coffee & Beverages:*\n‚Ä¢ Ethiopian Yirgacheffe - $4.50\n‚Ä¢ Cappuccino - $3.80\n‚Ä¢ Chai Latte - $4.20\n\n*Food:*\n‚Ä¢ Avocado Toast - $8.50\n‚Ä¢ Mediterranean Salad - $12.00\n‚Ä¢ Chocolate Croissant - $3.50\n\n*Today's Special:*\n‚Ä¢ Pumpkin Spice Latte - $5.00\n‚Ä¢ Seasonal Fruit Tart - $6.50\n\nVisit our Instagram @hawana_cafe for food photos!"
  else if jsIncludes messageText "hours" || jsIncludes messageText "open" ||
      jsIncludes messageText "time" then
    "üïí *Hawana Cafe Hours*\n\n*Monday - Friday:*\n‚Ä¢ 7:00 AM - 10:00 PM\n\n*Saturday - Sunday:*\n‚Ä¢ 8:00 AM - 11:00 PM\n\n*Happy Hour:*\n‚Ä¢ Daily 4:00 PM - 6:00 PM\n‚Ä¢ 50% off all beverages\n\nWe're located at 123 Coffee Street. Free WiFi available!"
  else
    "‚òï *Welcome to Hawana Cafe*\n\nWe're your neighborhood coffee haven!\n\nQuick options:\n‚Ä¢ Reply \"RESERVATION\" to book a table\n‚Ä¢ Reply \"MENU\" for our offerings\n‚Ä¢ Reply \"HOURS\" for opening times\n‚Ä¢ Reply \"SPECIALS\" for today's deals\n\nFollow us on Instagram @hawana_cafe for updates!"

/-- Embeds `WhatsAppController.generateInvestmentResponse` from the source. -/
def WhatsAppController.generateInvestmentResponse (messageText : String) : String :=
  if jsIncludes messageText "portfolio" || jsIncludes messageText "investment" ||
      jsIncludes messageText "performance" then
    "üìà *Portfolio Update*\n\nYour investment portfolio summary:\n\n*Current Value:* $125,450\n*Monthly Return:* +2.3%\n*YTD Return:* +8.7%\n\n*Top Performers:*\n‚Ä¢ Tech ETF: +12.5%\n‚Ä¢ Green Energy Fund: +9.2%\n‚Ä¢ International Bonds: +3.1%\n\n*Next Review:* Scheduled for next week\n\nTo schedule a consultation, reply \"MEETING\"."
  else if jsIncludes messageText "meeting" || jsIncludes messageText "consultation" ||
      jsIncludes messageText "appointment" then
    "üìÖ *Investment Consultation*\n\nAvailable appointment slots:\n\n*This Week:*\n‚Ä¢ Tuesday 2:00 PM - 3:00 PM\n‚Ä¢ Thursday 10:00 AM - 11:00 AM\n‚Ä¢ Friday 4:00 PM - 5:00 PM\n\n*Next Week:*\n‚Ä¢ Monday 9:00 AM - 10:00 AM\n‚Ä¢ Wednesday 1:00 PM - 2:00 PM\n\n*Meeting Options:*\n‚Ä¢ In-person at our office\n‚Ä¢ Video call (Zoom/Teams)\n‚Ä¢ Phone consultation\n\nReply with your preferred time and format."
  else if jsIncludes messageText "market" || jsIncludes messageText "trend" ||
      jsIncludes messageText "news" then
    "üìä *Market Update*\n\n*Today's Market Summary:*\n‚Ä¢ S&P 500: +0.8%\n‚Ä¢ NASDAQ: +1.2%\n‚Ä¢ Dow Jones: +0.5%\n\n*Key News:*\n‚Ä¢ Fed maintains interest rates\n‚Ä¢ Tech earnings beat expectations\n‚Ä¢ Oil prices stabilize\n\n*Investment Opportunities:*\n‚Ä¢ Emerging markets showing growth\n‚Ä¢ Renewable energy sector expanding\n‚Ä¢ Value stocks undervalued\n\nFor detailed analysis, reply \"ANALYSIS\"."
  else
    "üíº *Portfolio Management Services*\n\nWelcome to our investment advisory service!\n\nQuick options:\n‚Ä¢ Reply \"PORTFOLIO\" for your current status\n‚Ä¢ Reply \"MEETING\" to schedule consultation\n‚Ä¢ Reply \"MARKET\" for latest updates\n‚Ä¢ Reply \"ANALYSIS\" for detailed insights\n\nYour financial success is our priority."

/-- Embeds `WhatsAppController.generateDefaultResponse` from the source. -/
def WhatsAppController.generateDefaultResponse (_messageText : String) : String :=
  "üëã *Thank you for your message!*\n\nWe're here to help with:\n\nüéì *Education Catering*\n‚Ä¢ School meal services\n‚Ä¢ Healthy lunch options\n‚Ä¢ Delivery coordination\n\n‚òï *Hawana Cafe*\n‚Ä¢ Reservations & dining\n‚Ä¢ Coffee & food menu\n‚Ä¢ Special events\n\nüìà *Investment Services*\n‚Ä¢ Portfolio management\n‚Ä¢ Financial consultation\n‚Ä¢ Market analysis\n\nPlease specify which service you're interested in, or reply with a keyword like \"catering\", \"cafe\", or \"investment\"."

/-- Embeds `WebhookController.generateEducationResponse` from the source. -/
def WebhookController.generateEducationResponse (messageText : String) : String :=
  if jsIncludes messageText "menu" || jsIncludes messageText "food" then
    "üçΩÔ∏è *School Catering Menu Update*\n\nToday's healthy lunch options:\n‚Ä¢ Grilled chicken with vegetables\n‚Ä¢ Vegetarian pasta\n‚Ä¢ Fresh fruit salad\n\nTo place an order, reply with \"ORDER\" followed by your choice. Delivery time: 12:00 PM."
  else if jsIncludes messageText "order" || jsIncludes messageText "book" then
    "üìã *Order Confirmation*\n\nThank you for your catering order! We've received your request and will confirm within 30 minutes.\n\n*Order Details:*\n- Delivery Time: 12:00 PM\n- Location: School Cafeteria\n- Payment: Cash on delivery\n\nFor any changes, please contact us immediately."
  else if jsIncludes messageText "delivery" || jsIncludes messageText "time" then
    "‚è∞ *Delivery Information*\n\nOur delivery schedule:\n‚Ä¢ Breakfast: 7:30 AM - 8:00 AM\n‚Ä¢ Lunch: 12:00 PM - 12:30 PM\n‚Ä¢ Snacks: 3:00 PM - 3:15 PM\n\nFor special dietary requirements, please inform us 24 hours in advance."
  else
    "üçΩÔ∏è *School Catering Services*\n\nWelcome! We provide healthy, nutritious meals for students.\n\n*Our Services:*\n‚Ä¢ Daily lunch delivery\n‚Ä¢ Special event catering\n‚Ä¢ Dietary accommodations\n‚Ä¢ Nutrition consultation\n\nReply with \"MENU\" for today's options or \"ORDER\" to place an order."

/-- Embeds `WebhookController.generateHospitalityResponse` from the source. -/
def WebhookController.generateHospitalityResponse (messageText : String) : String :=
  if jsIncludes messageText "reservation" || jsIncludes messageText "table" ||
      jsIncludes messageText "book" then
    "‚òï *Hawana Cafe Reservation*\n\nThank you for your interest! To make a reservation:\n\n*Available Times:*\n‚Ä¢ Breakfast: 7:00 AM - 11:00 AM\n‚Ä¢ Lunch: 12:00 PM - 3:00 PM\n‚Ä¢ Dinner: 6:00 PM - 10:00 PM\n\n*Special Offers:*\n‚Ä¢ 20% off for groups of 4+\n‚Ä¢ Free dessert on birthdays\n‚Ä¢ Happy Hour: 4:00 PM - 6:00 PM\n\nReply with your preferred date, time, and party size."
  else if jsIncludes messageText "menu" || jsIncludes messageText "food" ||
      jsIncludes messageText "coffee" then
    "üç∞ *Hawana Cafe Menu*\n\n*Coffee & Beverages:*\n‚Ä¢ Ethiopian Yirgacheffe - $4.50\n‚Ä¢ Cappuccino - $3.80\n‚Ä¢ Chai Latte - $4.20\n\n*Food:*\n‚Ä¢ Avocado Toast - $8.50\n‚Ä¢ Mediterranean Salad - $12.00\n‚Ä¢ Chocolate Croissant - $3.50\n\n*Today's Special:*\n‚Ä¢ Pumpkin Spice Latte - $5.00\n‚Ä¢ Seasonal Fruit Tart - $6.50\n\nVisit our Instagram @hawana_cafe for food photos!"
  else if jsIncludes messageText "hours" || jsIncludes messageText "open" ||
      jsIncludes messageText "time" then
    "üïí *Hawana Cafe Hours*\n\n*Monday - Friday:*\n‚Ä¢ 7:00 AM - 10:00 PM\n\n*Saturday - Sunday:*\n‚Ä¢ 8:00 AM - 11:00 PM\n\n*Happy Hour:*\n‚Ä¢ Daily 4:00 PM - 6:00 PM\n‚Ä¢ 50% off all beverages\n\nWe're located at 123 Coffee Street. Free WiFi available!"
  else
    "‚òï *Hawana Cafe*\n\nWelcome to your neighborhood coffee haven!\n\n*What can we help you with?*\n‚Ä¢ \"RESERVATION\" - Book a table\n‚Ä¢ \"MENU\" - View our menu\n‚Ä¢ \"HOURS\" - Check our hours\n‚Ä¢ \"LOCATION\" - Find us\n\nWe look forward to serving you!"

/-- Embeds `WebhookController.generateInvestmentResponse` from the source. -/
def WebhookController.generateInvestmentResponse (messageText : String) : String :=
  if jsIncludes messageText "portfolio" || jsIncludes messageText "investment" ||
      jsIncludes messageText "performance" then
    "üìà *Portfolio Update*\n\nYour investment portfolio summary:\n\n*Current Value:* $125,450\n*Monthly Return:* +2.3%\n*YTD Return:* +8.7%\n\n*Top Performers:*\n‚Ä¢ Tech ETF: +12.5%\n‚Ä¢ Green Energy Fund: +9.2%\n‚Ä¢ International Bonds: +3.1%\n\n*Next Review:* Scheduled for next week\n\nTo schedule a consultation, reply \"MEETING\"."
  else if jsIncludes messageText "meeting" || jsIncludes messageText "consultation" ||
      jsIncludes messageText "appointment" then
    "üìÖ *Investment Consultation*\n\nAvailable appointment slots:\n\n*This Week:*\n‚Ä¢ Tuesday 2:00 PM - 3:00 PM\n‚Ä¢ Thursday 10:00 AM - 11:00 AM\n‚Ä¢ Friday 4:00 PM - 5:00 PM\n\n*Next Week:*\n‚Ä¢ Monday 9:00 AM - 10:00 AM\n‚Ä¢ Wednesday 1:00 PM - 2:00 PM\n\n*Meeting Options:*\n‚Ä¢ In-person at our office\n‚Ä¢ Video call (Zoom/Teams)\n‚Ä¢ Phone consultation\n\nReply with your preferred time and format."
  else if jsIncludes messageText "market" || jsIncludes messageText "trend" ||
      jsIncludes messageText "news" then
    "üìä *Market Update*\n\n*Today's Market Summary:*\n‚Ä¢ S&P 500: +0.8%\n‚Ä¢ NASDAQ: +1.2%\n‚Ä¢ Dow Jones: +0.5%\n\n*Key News:*\n‚Ä¢ Fed maintains interest rates\n‚Ä¢ Tech earnings beat expectations\n‚Ä¢ Oil prices stabilize\n\n*Investment Opportunities:*\n‚Ä¢ Emerging markets showing growth\n‚Ä¢ Renewable energy sector expanding\n‚Ä¢ Value stocks undervalued\n\nFor detailed analysis, reply \"ANALYSIS\"."
  else
    "üìà *Portfolio Management Services*\n\nWelcome! We help you build and manage your investment portfolio.\n\n*Our Services:*\n‚Ä¢ Portfolio review and optimization\n‚Ä¢ Investment planning\n‚Ä¢ Market analysis\n‚Ä¢ Financial consultation\n\nReply with \"PORTFOLIO\" for your current status, \"MEETING\" to schedule a consultation, or \"MARKET\" for today's update."

/-- Embeds `WebhookController.generateDefaultResponse` from the source. -/
def WebhookController.generateDefaultResponse (_messageText : String) : String :=
  "üëã *Thank you for your message!*\n\nWe're here to help. Please let us know what you're looking for:\n\n*For School Catering:* Reply with \"CATERING\"\n*For Cafe Services:* Reply with \"CAFE\"\n*For Investment Services:* Reply with \"INVESTMENT\"\n\nWe'll connect you with the right team!"


/-- Embeds `WhatsAppController.generateAutomatedResponse`: lowercase the
message and dispatch on the sector string (`switch (sector)` in source),
falling back to the default response for unknown sector labels.  The
`phoneNumber` argument is accepted but, as in the source, never used. -/
def WhatsAppController.generateAutomatedResponse
    (sector messageText phoneNumber : String) : String :=
  let text := jsToLower messageText
  if sector = "education" then WhatsAppController.generateEducationResponse text
  else if sector = "hospitality" then WhatsAppController.generateHospitalityResponse text
  else if sector = "investment" then WhatsAppController.generateInvestmentResponse text
  else WhatsAppController.generateDefaultResponse text

/-- Embeds `WebhookController.generateAutomatedResponse` (same dispatch
shape, its own per-sector generators). -/
def WebhookController.generateAutomatedResponse
    (sector messageText phoneNumber : String) : String :=
  let text := jsToLower messageText
  if sector = "education" then WebhookController.generateEducationResponse text
  else if sector = "hospitality" then WebhookController.generateHospitalityResponse text
  else if sector = "investment" then WebhookController.generateInvestmentResponse text
  else WebhookController.generateDefaultResponse text

/-- The `text` object of a WhatsApp webhook message (`{ body: "..." }`). -/
structure MessageText where
  body : String
  deriving DecidableEq, Repr

/-- One message of a WhatsApp webhook payload.  The JavaScript field
`from` is named `sender` here (`from` is a Lean keyword). -/
structure WAMessage where
  sender : String
  text : Option MessageText
  type : String
  deriving DecidableEq, Repr

/-- The `value` object of a webhook change; `messages` may be absent. -/
structure ChangeValue where
  messages : Option (List WAMessage)
  deriving DecidableEq, Repr

/-- One element of `entry[i].changes`; `value` may be absent. -/
structure WAChange where
  value : Option ChangeValue
  deriving DecidableEq, Repr

/-- One element of `body.entry`; `changes` may be absent. -/
structure WAEntry where
  changes : Option (List WAChange)
  deriving DecidableEq, Repr

/-- A WhatsApp webhook envelope: discriminator plus optional entry list. -/
structure WABody where
  object : String
  entry : Option (List WAEntry)
  deriving DecidableEq, Repr

/-- The message text derivation `text?.body || ""` used by both
message processors. -/
def msgTextOf (message : WAMessage) : String :=
  match message.text with
  | some t => t.body
  | none => ""

/-- The messages selected by `body.entry?.[0]`, `entry?.changes?.[0]`,
`changes?.value`, `value?.messages` (optional chaining: any missing link
yields no messages; an empty `messages` array iterates zero times). -/
def extractMessages (body : WABody) : List WAMessage :=
  match body.entry with
  | some (e :: _) =>
    match e.changes with
    | some (c :: _) =>
      match c.value with
      | some v =>
        match v.messages with
        | some ms => ms
        | none => []
      | none => []
    | _ => []
  | _ => []

/-- Observable calls made while processing webhook messages: classifier
calls, template-bank calls, invocations of the outbound send primitive
(`WhatsAppService.sendMessage`), the HTTP POST that primitive performs,
and interaction-record writes (the webhook controller's record carries
an extra platform tag). -/
inductive Event where
  | classify (text : String)
  | render (sector text : String)
  | send (recipient body sector : String)
  | post (recipient body : String)
  | store (sender message sector direction : String)
  | storePlatform (platform sender message sector direction : String)
  deriving DecidableEq, Repr

/-- Outcome of the external HTTP transport: `postFails recipient body`
says whether the axios `apiClient.post` of the message payload in
`WhatsAppService.sendMessage` raises (network/provider error or the 10s
timeout).  The axios client is a third-party dependency, so only the
outcome of each POST is an oracle; everything `WhatsAppService` does
around it is embedded from `src/app.js`. -/
structure Net where
  postFails : String → String → Bool

/-- Embeds `WhatsAppService.storeMessage` from the source: it only logs
the record and returns `true`; its own `catch` returns `false` instead of
rethrowing, so it never raises.  The returned event records the stored
fields. -/
def WhatsAppService.storeMessage (sender message sector direction : String) : List Event :=
  [Event.store sender message sector direction]

/-- Embeds `WhatsAppService.sendMessage` from the source, as the events
it performs plus whether it raised: it POSTs the text payload to the
provider; on success it logs and stores an outbound-direction record via
`storeMessage` (which cannot raise) and returns normally; if the POST
raises, the `catch` logs and rethrows `createError(500, ...)`. -/
def WhatsAppService.sendMessage (net : Net) (phoneNumber message sector : String) :
    List Event × Bool :=
  if net.postFails phoneNumber message then
    ([Event.post phoneNumber message], true)
  else
    (Event.post phoneNumber message ::
      WhatsAppService.storeMessage phoneNumber message sector "outbound", false)

/-- Embeds `WhatsAppController.processIncomingMessage` as an event trace.
The whole body sits in one `try`: the classifier and template bank are
total, `WhatsAppService.sendMessage` is awaited only for a truthy
(non-empty) response (the `Event.send` marks that invocation with its
arguments), and when `sendMessage` rethrows its failed POST the
surrounding `catch` catches it — so the inbound `storeMessage` call after
it is skipped.  The inbound store itself cannot raise, and no exception
ever escapes this function. -/
def WhatsAppController.processIncomingMessage (net : Net) (message : WAMessage) :
    List Event :=
  let phoneNumber := message.sender
  let messageText := msgTextOf message
  let sector := WhatsAppController.determineSector messageText
  let response := WhatsAppController.generateAutomatedResponse sector messageText phoneNumber
  Event.classify messageText ::
    Event.render sector messageText ::
      (if response ≠ "" then
        Event.send phoneNumber response sector ::
          ((WhatsAppService.sendMessage net phoneNumber response sector).1 ++
            (if (WhatsAppService.sendMessage net phoneNumber response sector).2 then
              []
            else
              WhatsAppService.storeMessage phoneNumber messageText sector "inbound"))
      else
        WhatsAppService.storeMessage phoneNumber messageText sector "inbound")

/-- Embeds `WhatsAppController.handleWebhook`.  On the matching
discriminator it awaits `processIncomingMessage` for each extracted
message in order and replies `200 "OK"`; otherwise `404 "Not Found"`.
Nothing in the `try` body can raise (`processIncomingMessage` swallows
its own errors), so the `500` catch branch is unreachable. -/
def WhatsAppController.handleWebhook (net : Net) (body : WABody) :
    (Nat × String) × List Event :=
  if body.object = "whatsapp_business_account" then
    ((200, "OK"), (extractMessages body).flatMap (WhatsAppController.processIncomingMessage net))
  else
    ((404, "Not Found"), [])

/-- Embeds `WebhookController.processWhatsAppMessage` as an event trace.
This variant classifies and renders, but the send step is only a
`logger.info` (no call to the outbound send primitive), and the record
write goes to `WebhookController.storeMessage` — an in-file logging stub
that cannot raise — with an extra `platform: "whatsapp"` field. -/
def WebhookController.processWhatsAppMessage (message : WAMessage) : List Event :=
  let phoneNumber := message.sender
  let messageText := msgTextOf message
  let sector := WebhookController.determineSector messageText
  let response := WebhookController.generateAutomatedResponse sector messageText phoneNumber
  Event.classify messageText ::
    Event.render sector messageText ::
      [Event.storePlatform "whatsapp" phoneNumber messageText sector "inbound"]

/-- Embeds `WebhookController.handleWhatsAppWebhook` (same shape as
`WhatsAppController.handleWebhook`, using this controller's processor). -/
def WebhookController.handleWhatsAppWebhook (body : WABody) :
    (Nat × String) × List Event :=
  if body.object = "whatsapp_business_account" then
    ((200, "OK"), (extractMessages body).flatMap WebhookController.processWhatsAppMessage)
  else
    ((404, "Not Found"), [])

/-- Embeds `WhatsAppController.verifyWebhook`: echo the challenge with
status 200 iff `hub.mode` is `"subscribe"` and `hub.verify_token` equals
the configured secret; otherwise status 403 with body `"Forbidden"`.
Query parameters and the environment secret are `Option` (undefined is
`none`); the response body is an `Option String`. -/
def WhatsAppController.verifyWebhook (verifyToken mode token challenge : Option String) :
    Nat × Option String :=
  if mode = some "subscribe" ∧ token = verifyToken then
    (200, challenge)
  else
    (403, some "Forbidden")

/-- Embeds `WebhookController.verifyWhatsAppWebhook` (its body is
character-for-character the same as the WhatsApp controller's gate). -/
def WebhookController.verifyWhatsAppWebhook (verifyToken mode token challenge : Option String) :
    Nat × Option String :=
  if mode = some "subscribe" ∧ token = verifyToken then
    (200, challenge)
  else
    (403, some "Forbidden")

/-- One element of a Facebook/Instagram/Meta-Pixel entry's `changes`. -/
structure MetaChange where
  field : String
  deriving DecidableEq, Repr

/-- One element of `body.entry` for the Meta-style handlers; `changes`
may be absent (no optional chaining protects its iteration). -/
structure MetaEntry where
  changes : Option (List MetaChange)
  deriving DecidableEq, Repr

/-- Envelope for the Facebook/Instagram/Meta-Pixel handlers; `entry` may
be absent (its iteration is not protected by optional chaining either). -/
structure MetaBody where
  object : String
  entry : Option (List MetaEntry)
  deriving DecidableEq, Repr

/-- Embeds `WebhookController.verifyFacebookWebhookSignature`: the source
placeholder always returns `true`. -/
def WebhookController.verifyFacebookWebhookSignature : Bool := true

/-- Embeds `WebhookController.verifyInstagramWebhookSignature`: the
source placeholder always returns `true`. -/
def WebhookController.verifyInstagramWebhookSignature : Bool := true

/-- Embeds `WebhookController.verifyMetaPixelWebhookSignature`: the
source placeholder always returns `true`. -/
def WebhookController.verifyMetaPixelWebhookSignature : Bool := true

/-- Embeds `WebhookController.handleFacebookWebhook` (status and body
only).  `for (const entry of body.entry)` and `for (const change of
entry.changes)` use no optional chaining: with the matching
discriminator, a missing `entry` list — or any entry with a missing
`changes` list — raises a `TypeError` that the boundary `catch` converts
into `500 "Internal Server Error"`.  The per-change processor swallows
its own errors, so the change contents cannot cause a 500. -/
def WebhookController.handleFacebookWebhook (body : MetaBody) : Nat × String :=
  if WebhookController.verifyFacebookWebhookSignature = false then
    (401, "Unauthorized")
  else if body.object = "page" then
    match body.entry with
    | none => (500, "Internal Server Error")
    | some entries =>
      if entries.all (fun e => e.changes.isSome) then (200, "OK")
      else (500, "Internal Server Error")
  else
    (404, "Not Found")

/-- Embeds `WebhookController.handleInstagramWebhook` (status and body
only; same structure as the Facebook handler, discriminator
`"instagram"`). -/
def WebhookController.handleInstagramWebhook (body : MetaBody) : Nat × String :=
  if WebhookController.verifyInstagramWebhookSignature = false then
    (401, "Unauthorized")
  else if body.object = "instagram" then
    match body.entry with
    | none => (500, "Internal Server Error")
    | some entries =>
      if entries.all (fun e => e.changes.isSome) then (200, "OK")
      else (500, "Internal Server Error")
  else
    (404, "Not Found")

/-- Embeds `WebhookController.handleMetaPixelWebhook` (status and body
only; same structure as the Facebook handler, discriminator
`"ad_account"`). -/
def WebhookController.handleMetaPixelWebhook (body : MetaBody) : Nat × String :=
  if WebhookController.verifyMetaPixelWebhookSignature = false then
    (401, "Unauthorized")
  else if body.object = "ad_account" then
    match body.entry with
    | none => (500, "Internal Server Error")
    | some entries =>
      if entries.all (fun e => e.changes.isSome) then (200, "OK")
      else (500, "Internal Server Error")
  else
    (404, "Not Found")


/-- The education keyword set, as the spec lists it. -/
def educationKeywords : List String := ["catering", "school", "lunch", "menu"]

/-- The hospitality keyword set, as the spec lists it. -/
def hospitalityKeywords : List String := ["cafe", "coffee", "reservation", "table"]

/-- The investment keyword set, as the spec lists it. -/
def investmentKeywords : List String := ["investment", "portfolio", "meeting", "financial"]

/-- The sector classifier exactly as the spec words it: on the lowercased
text, check each sector's keyword set for any match, in the fixed priority
order education, hospitality, investment; first match wins; fall back to
hospitality. -/
def classifySpec (text : String) : String :=
  let t := jsToLower text
  if educationKeywords.any (fun k => jsIncludes t k) then "education"
  else if hospitalityKeywords.any (fun k => jsIncludes t k) then "hospitality"
  else if investmentKeywords.any (fun k => jsIncludes t k) then "investment"
  else "hospitality"

/-- Whether an event is an interaction-record write. -/
def Event.isStoreEvent : Event → Bool
  | .store _ _ _ _ => true
  | .storePlatform _ _ _ _ _ => true
  | _ => false

/-- Whether an event is an outbound send. -/
def Event.isSendEvent : Event → Bool
  | .send _ _ _ => true
  | _ => false

/-- A transport under which every message POST raises. -/
def netAllPostsFail : Net := ⟨fun _ _ => true⟩

/-- A transport under which no message POST raises. -/
def netNoPostFails : Net := ⟨fun _ _ => false⟩

/-- A transport under which exactly the POSTs addressed to `"1111"` raise. -/
def netFirstSenderFails : Net := ⟨fun recipient _ => recipient = "1111"⟩

/-- A sample inbound message whose text matches no keyword. -/
def sampleMsg : WAMessage := ⟨"15551234567", some ⟨"hello"⟩, "text"⟩

/-- A two-message payload with the matching discriminator: one message
from `"1111"` (whose POSTs fail under `netFirstSenderFails`) followed by
one from `"2222"`. -/
def twoMsgBody : WABody :=
  ⟨"whatsapp_business_account",
    some [⟨some [⟨some ⟨some [⟨"1111", some ⟨"hello"⟩, "text"⟩,
                              ⟨"2222", some ⟨"i want catering"⟩, "text"⟩]⟩⟩]⟩]⟩

/-- Whether the text matches one of the education intent keywords
(menu/food, order/book, delivery/time). -/
def educationIntentMatched (t : String) : Bool :=
  jsIncludes t "menu" || jsIncludes t "food" || jsIncludes t "order" ||
    jsIncludes t "book" || jsIncludes t "delivery" || jsIncludes t "time"

/-- Whether the text matches one of the hospitality intent keywords
(reservation/table/book, menu/food/coffee, hours/open/time). -/
def hospitalityIntentMatched (t : String) : Bool :=
  jsIncludes t "reservation" || jsIncludes t "table" || jsIncludes t "book" ||
    jsIncludes t "menu" || jsIncludes t "food" || jsIncludes t "coffee" ||
    jsIncludes t "hours" || jsIncludes t "open" || jsIncludes t "time"

/-- Whether the text matches one of the investment intent keywords
(portfolio/investment/performance, meeting/consultation/appointment,
market/trend/news). -/
def investmentIntentMatched (t : String) : Bool :=
  jsIncludes t "portfolio" || jsIncludes t "investment" || jsIncludes t "performance" ||
    jsIncludes t "meeting" || jsIncludes t "consultation" || jsIncludes t "appointment" ||
    jsIncludes t "market" || jsIncludes t "trend" || jsIncludes t "news"

theorem eduResponses_agree (t : String) (h : educationIntentMatched t = true) :
    WebhookController.generateEducationResponse t =
      WhatsAppController.generateEducationResponse t := by
  unfold WebhookController.generateEducationResponse WhatsAppController.generateEducationResponse
  cases hm : (jsIncludes t "menu" || jsIncludes t "food") with
  | true => simp [hm]
  | false =>
    cases ho : (jsIncludes t "order" || jsIncludes t "book") with
    | true => simp [hm, ho]
    | false =>
      cases hd : (jsIncludes t "delivery" || jsIncludes t "time") with
      | true => simp [hm, ho, hd]
      | false =>
        exfalso
        simp only [Bool.or_eq_false_iff] at hm ho hd
        simp [educationIntentMatched, hm.1, hm.2, ho.1, ho.2, hd.1, hd.2] at h

theorem hospResponses_agree (t : String) (h : hospitalityIntentMatched t = true) :
    WebhookController.generateHospitalityResponse t =
      WhatsAppController.generateHospitalityResponse t := by
  unfold WebhookController.generateHospitalityResponse WhatsAppController.generateHospitalityResponse
  cases hr : (jsIncludes t "reservation" || jsIncludes t "table" || jsIncludes t "book") with
  | true => simp [hr]
  | false =>
    cases hm : (jsIncludes t "menu" || jsIncludes t "food" || jsIncludes t "coffee") with
    | true => simp [hr, hm]
    | false =>
      cases hh : (jsIncludes t "hours" || jsIncludes t "open" || jsIncludes t "time") with
      | true => simp [hr, hm, hh]
      | false =>
        exfalso
        simp only [Bool.or_eq_false_iff] at hr hm hh
        simp [hospitalityIntentMatched, hr.1.1, hr.1.2, hr.2, hm.1.1, hm.1.2, hm.2,
          hh.1.1, hh.1.2, hh.2] at h

theorem invResponses_agree (t : String) (h : investmentIntentMatched t = true) :
    WebhookController.generateInvestmentResponse t =
      WhatsAppController.generateInvestmentResponse t := by
  unfold WebhookController.generateInvestmentResponse WhatsAppController.generateInvestmentResponse
  cases hp : (jsIncludes t "portfolio" || jsIncludes t "investment" || jsIncludes t "performance") with
  | true => simp [hp]
  | false =>
    cases hm : (jsIncludes t "meeting" || jsIncludes t "consultation" || jsIncludes t "appointment") with
    | true => simp [hp, hm]
    | false =>
      cases hk : (jsIncludes t "market" || jsIncludes t "trend" || jsIncludes t "news") with
      | true => simp [hp, hm, hk]
      | false =>
        exfalso
        simp only [Bool.or_eq_false_iff] at hp hm hk
        simp [investmentIntentMatched, hp.1.1, hp.1.2, hp.2, hm.1.1, hm.1.2, hm.2,
          hk.1.1, hk.1.2, hk.2] at h

/-- C1: for every input text, both controllers' sector classifiers return
exactly the spec's fixed priority-ordered keyword cascade: education
keywords first, then hospitality, then investment, falling back to
hospitality when no keyword matches. -/
theorem determineSector_eq_spec_cascade (text : String) :
    WhatsAppController.determineSector text = classifySpec text ∧
    WebhookController.determineSector text = classifySpec text := by
  constructor <;>
    simp [WhatsAppController.determineSector, WebhookController.determineSector,
      classifySpec, educationKeywords, hospitalityKeywords, investmentKeywords,
      or_assoc]

/-- C8: for every sector (in particular each of education, hospitality and
investment) and every input text, the template banks of both controllers
return a non-empty string: every branch of every generator, including each
sector's default template, is a non-empty literal. -/
theorem render_never_empty (sector messageText phoneNumber : String) :
    WhatsAppController.generateAutomatedResponse sector messageText phoneNumber ≠ "" ∧
    WebhookController.generateAutomatedResponse sector messageText phoneNumber ≠ "" := by
  constructor <;>
    (simp only [WhatsAppController.generateAutomatedResponse,
      WebhookController.generateAutomatedResponse,
      WhatsAppController.generateEducationResponse,
      WhatsAppController.generateHospitalityResponse,
      WhatsAppController.generateInvestmentResponse,
      WhatsAppController.generateDefaultResponse,
      WebhookController.generateEducationResponse,
      WebhookController.generateHospitalityResponse,
      WebhookController.generateInvestmentResponse,
      WebhookController.generateDefaultResponse]
     repeat' split) <;> decide

/-- C9: the template banks are deterministic functions of (sector, text):
identical (sector, text) arguments yield byte-identical output for any two
invocations, whatever the (unused) phone-number argument is — the render
functions depend only on their arguments and the static templates. -/
theorem render_deterministic (sector messageText p q : String) :
    WhatsAppController.generateAutomatedResponse sector messageText p =
      WhatsAppController.generateAutomatedResponse sector messageText q ∧
    WebhookController.generateAutomatedResponse sector messageText p =
      WebhookController.generateAutomatedResponse sector messageText q :=
  ⟨rfl, rfl⟩

/-- C10 counterexample: the two template banks are not extensionally
equal — on sector `"education"` with text `""` (the default branch) the
webhook controller's bank and the WhatsApp controller's bank return
different default templates. -/
theorem template_banks_differ_on_default :
    WebhookController.generateAutomatedResponse "education" "" "" ≠
      WhatsAppController.generateAutomatedResponse "education" "" "" := by
  decide

/-- C10 amended: the two template banks agree on every (sector, text)
whose lowercased text matches one of that sector's intent keyword
branches; the divergence is confined to the four default/fallback
templates (education, hospitality, investment, and unknown-sector
defaults). -/
theorem template_banks_agree_on_intents (sector messageText phoneNumber : String) :
    (sector = "education" → educationIntentMatched (jsToLower messageText) = true →
      WebhookController.generateAutomatedResponse sector messageText phoneNumber =
        WhatsAppController.generateAutomatedResponse sector messageText phoneNumber) ∧
    (sector = "hospitality" → hospitalityIntentMatched (jsToLower messageText) = true →
      WebhookController.generateAutomatedResponse sector messageText phoneNumber =
        WhatsAppController.generateAutomatedResponse sector messageText phoneNumber) ∧
    (sector = "investment" → investmentIntentMatched (jsToLower messageText) = true →
      WebhookController.generateAutomatedResponse sector messageText phoneNumber =
        WhatsAppController.generateAutomatedResponse sector messageText phoneNumber) := by
  refine ⟨?_, ?_, ?_⟩ <;> rintro rfl h <;>
    simp only [WebhookController.generateAutomatedResponse,
      WhatsAppController.generateAutomatedResponse, if_true, if_false,
      reduceIte]
  · exact eduResponses_agree _ h
  · exact hospResponses_agree _ h
  · exact invResponses_agree _ h

/-- C10 amended, witness: at sector `"education"` and text `"menu"` the
two banks agree. -/
theorem template_banks_agree_on_intents_witness :
    WebhookController.generateAutomatedResponse "education" "menu" "" =
      WhatsAppController.generateAutomatedResponse "education" "menu" "" :=
  (template_banks_agree_on_intents "education" "menu" "").1 rfl (by decide)

/-- C2 counterexample: when the message POST raises,
`WhatsAppService.sendMessage` rethrows, and the WhatsApp message
processor — which did invoke the send primitive for the sample inbound
message — never attempts the interaction-record write: the single
`try`/`catch` around the whole body jumps past the inbound `storeMessage`
call, refuting the claim that the record write is attempted regardless of
send failure. -/
theorem send_failure_skips_record_write :
    (WhatsAppController.processIncomingMessage netAllPostsFail sampleMsg).any
        Event.isSendEvent = true ∧
    (WhatsAppController.processIncomingMessage netAllPostsFail sampleMsg).any
        Event.isStoreEvent = false := by
  decide

/-- C2 amended: the interaction record for the inbound message (sender,
text, sector, direction inbound) is attempted whenever the outbound
send's POST does not raise — so `WhatsAppService.sendMessage` returns
normally — and also when no send is attempted at all; a raising send, by
contrast, skips the inbound record write, though the exception never
escapes the processor. -/
theorem record_write_attempted_when_send_ok (net : Net) (message : WAMessage)
    (h : net.postFails message.sender
        (WhatsAppController.generateAutomatedResponse
          (WhatsAppController.determineSector (msgTextOf message)) (msgTextOf message)
          message.sender) = false) :
    Event.store message.sender (msgTextOf message)
        (WhatsAppController.determineSector (msgTextOf message)) "inbound" ∈
      WhatsAppController.processIncomingMessage net message := by
  simp only [WhatsAppController.processIncomingMessage, WhatsAppService.sendMessage,
    WhatsAppService.storeMessage, h, List.mem_cons]
  split <;> simp

/-- C2 amended, witness: with no send failures, the record write for the
sample message is in the processor's trace. -/
theorem record_write_attempted_when_send_ok_witness :
    Event.store sampleMsg.sender (msgTextOf sampleMsg)
        (WhatsAppController.determineSector (msgTextOf sampleMsg)) "inbound" ∈
      WhatsAppController.processIncomingMessage netNoPostFails sampleMsg :=
  record_write_attempted_when_send_ok netNoPostFails sampleMsg rfl

/-- C3 counterexample: `WebhookController.processWhatsAppMessage` renders
a non-empty reply for the sample message yet its trace contains no call
to the outbound send primitive (the send step in that controller is only
a log line), refuting the claim for that dispatcher. -/
theorem webhook_processor_never_sends :
    WebhookController.generateAutomatedResponse
        (WebhookController.determineSector (msgTextOf sampleMsg)) (msgTextOf sampleMsg)
        sampleMsg.sender ≠ "" ∧
    (WebhookController.processWhatsAppMessage sampleMsg).any Event.isSendEvent = false := by
  decide

/-- C3 amended: the WhatsApp-controller dispatcher, for every processed
message, derives the sender id and text, calls the classifier and the
template bank, and — whenever the rendered reply is non-empty — invokes
the outbound send primitive with (senderId, reply, sector); the
webhook-controller variant classifies and renders but never calls the
send primitive. -/
theorem dispatcher_classifies_renders_sends (net : Net) (message : WAMessage) :
    Event.classify (msgTextOf message) ∈
      WhatsAppController.processIncomingMessage net message ∧
    Event.render (WhatsAppController.determineSector (msgTextOf message)) (msgTextOf message) ∈
      WhatsAppController.processIncomingMessage net message ∧
    (WhatsAppController.generateAutomatedResponse
        (WhatsAppController.determineSector (msgTextOf message)) (msgTextOf message)
        message.sender ≠ "" →
      Event.send message.sender
          (WhatsAppController.generateAutomatedResponse
            (WhatsAppController.determineSector (msgTextOf message)) (msgTextOf message)
            message.sender)
          (WhatsAppController.determineSector (msgTextOf message)) ∈
        WhatsAppController.processIncomingMessage net message) ∧
    (WebhookController.processWhatsAppMessage message).any Event.isSendEvent = false := by
  refine ⟨?_, ?_, fun hresp => ?_, ?_⟩
  · simp [WhatsAppController.processIncomingMessage]
  · simp [WhatsAppController.processIncomingMessage]
  · simp only [WhatsAppController.processIncomingMessage, List.mem_cons]
    right; right
    rw [if_pos hresp]
    split <;> simp
  · simp [WebhookController.processWhatsAppMessage, Event.isSendEvent]

/-- C3 amended, witness: for the sample message (under a transport where
the POST raises — the primitive is still invoked), the send event with
(senderId, reply, sector) is in the trace. -/
theorem dispatcher_classifies_renders_sends_witness :
    Event.send sampleMsg.sender
        (WhatsAppController.generateAutomatedResponse
          (WhatsAppController.determineSector (msgTextOf sampleMsg)) (msgTextOf sampleMsg)
          sampleMsg.sender)
        (WhatsAppController.determineSector (msgTextOf sampleMsg)) ∈
      WhatsAppController.processIncomingMessage netAllPostsFail sampleMsg :=
  (dispatcher_classifies_renders_sends netAllPostsFail sampleMsg).2.2.1 (by decide)

/-- C4 counterexample: a failed verification with `hub.challenge` set to
the string `"Forbidden"` answers 403 with body `"Forbidden"` — which is
exactly the challenge value, refuting the claim that the failure body is
never the challenge value. -/
theorem verify_failure_body_can_equal_challenge :
    WhatsAppController.verifyWebhook (some "test_token") (some "subscribe") (some "wrong")
        (some "Forbidden") = (403, some "Forbidden") := by
  decide

/-- C4 amended: the verification gate answers 200 iff `hub.mode` is
`"subscribe"` and `hub.verify_token` equals the configured secret; on
success it echoes the challenge verbatim as the body; on any failure it
answers 403 with the fixed body `"Forbidden"`, which differs from the
challenge value whenever the challenge is not itself `"Forbidden"`; and
the webhook controller's gate is the same function. -/
theorem verify_gate_spec (verifyToken mode token challenge : Option String) :
    ((WhatsAppController.verifyWebhook verifyToken mode token challenge).1 = 200 ↔
      (mode = some "subscribe" ∧ token = verifyToken)) ∧
    (mode = some "subscribe" → token = verifyToken →
      WhatsAppController.verifyWebhook verifyToken mode token challenge = (200, challenge)) ∧
    (¬(mode = some "subscribe" ∧ token = verifyToken) →
      WhatsAppController.verifyWebhook verifyToken mode token challenge =
        (403, some "Forbidden")) ∧
    (challenge ≠ some "Forbidden" → ¬(mode = some "subscribe" ∧ token = verifyToken) →
      (WhatsAppController.verifyWebhook verifyToken mode token challenge).2 ≠ challenge) ∧
    WebhookController.verifyWhatsAppWebhook verifyToken mode token challenge =
      WhatsAppController.verifyWebhook verifyToken mode token challenge := by
  by_cases hc : mode = some "subscribe" ∧ token = verifyToken
  · refine ⟨?_, fun _ _ => ?_, fun hn => absurd hc hn, fun _ hn => absurd hc hn, rfl⟩ <;>
      simp [WhatsAppController.verifyWebhook, hc]
  · refine ⟨?_, fun h1 h2 => absurd ⟨h1, h2⟩ hc, fun _ => ?_, fun hch _ => ?_, rfl⟩ <;>
      simp [WhatsAppController.verifyWebhook, hc]
    exact fun he => hch he.symm

/-- C4 amended, witness: the spec scenario — secret `test_token`, mode
`subscribe`, token `test_token`, challenge `test_challenge` — answers
status 200 with body exactly `test_challenge`. -/
theorem verify_gate_spec_witness :
    WhatsAppController.verifyWebhook (some "test_token") (some "subscribe")
        (some "test_token") (some "test_challenge") = (200, some "test_challenge") :=
  (verify_gate_spec (some "test_token") (some "subscribe") (some "test_token")
    (some "test_challenge")).2.1 rfl rfl

/-- C5: a payload whose top-level discriminator is not
`"whatsapp_business_account"` makes both WhatsApp webhook handlers answer
404 `"Not Found"` with an empty trace — no classification, no rendering,
no send, no store. -/
theorem wrong_discriminator_404_no_calls (net : Net) (body : WABody)
    (h : body.object ≠ "whatsapp_business_account") :
    WhatsAppController.handleWebhook net body = ((404, "Not Found"), []) ∧
    WebhookController.handleWhatsAppWebhook body = ((404, "Not Found"), []) := by
  constructor <;>
    simp [WhatsAppController.handleWebhook, WebhookController.handleWhatsAppWebhook, h]

/-- C5 witness: a concrete payload with discriminator `"page"`. -/
theorem wrong_discriminator_404_no_calls_witness :
    WhatsAppController.handleWebhook netNoPostFails ⟨"page", none⟩ = ((404, "Not Found"), []) ∧
    WebhookController.handleWhatsAppWebhook ⟨"page", none⟩ = ((404, "Not Found"), []) :=
  wrong_discriminator_404_no_calls netNoPostFails ⟨"page", none⟩ (by decide)

/-- C6: with the matching discriminator, whichever message POSTs fail
(making `sendMessage` raise), the handler still answers 200 `"OK"` and every
extracted message of the payload is classified and rendered — an
exception while processing one message is swallowed inside the
per-message processor and does not prevent the processing of the other
messages. -/
theorem per_message_failure_isolated (net : Net) (body : WABody)
    (h : body.object = "whatsapp_business_account") (message : WAMessage)
    (hm : message ∈ extractMessages body) :
    (WhatsAppController.handleWebhook net body).1 = (200, "OK") ∧
    Event.classify (msgTextOf message) ∈ (WhatsAppController.handleWebhook net body).2 ∧
    Event.render (WhatsAppController.determineSector (msgTextOf message)) (msgTextOf message) ∈
      (WhatsAppController.handleWebhook net body).2 := by
  have hb : WhatsAppController.handleWebhook net body =
      ((200, "OK"),
        (extractMessages body).flatMap (WhatsAppController.processIncomingMessage net)) := by
    simp [WhatsAppController.handleWebhook, h]
  rw [hb]
  refine ⟨rfl, ?_, ?_⟩ <;>
    exact List.mem_flatMap.mpr ⟨message, hm, by simp [WhatsAppController.processIncomingMessage]⟩

/-- C6 witness: a two-message payload under a transport where every POST
to the first sender raises — the handler still answers 200 `"OK"` and the
second message is classified and rendered. -/
theorem per_message_failure_isolated_witness :
    (WhatsAppController.handleWebhook netFirstSenderFails twoMsgBody).1 = (200, "OK") ∧
    Event.classify (msgTextOf ⟨"2222", some ⟨"i want catering"⟩, "text"⟩) ∈
      (WhatsAppController.handleWebhook netFirstSenderFails twoMsgBody).2 ∧
    Event.render
        (WhatsAppController.determineSector (msgTextOf ⟨"2222", some ⟨"i want catering"⟩, "text"⟩))
        (msgTextOf ⟨"2222", some ⟨"i want catering"⟩, "text"⟩) ∈
      (WhatsAppController.handleWebhook netFirstSenderFails twoMsgBody).2 :=
  per_message_failure_isolated netFirstSenderFails twoMsgBody rfl
    ⟨"2222", some ⟨"i want catering"⟩, "text"⟩ (by decide)

/-- C7 counterexample: the Facebook handler, on the payload whose
discriminator `"page"` matches but whose `entry` list is missing,
answers 500 `"Internal Server Error"` (the unguarded `for (const entry
of body.entry)` raises), refuting the claim that malformed envelopes
never produce a 500. -/
theorem facebook_missing_entry_yields_500 :
    WebhookController.handleFacebookWebhook ⟨"page", none⟩ = (500, "Internal Server Error") := by
  decide

/-- C7 amended: the two WhatsApp webhook handlers can only answer 200 or
404 (never 500); the Facebook, Instagram and Meta Pixel handlers answer
404 on a wrong discriminator, but on a matching discriminator with a
missing `entry` list they answer 500 `"Internal Server Error"` instead of
a no-op success. -/
theorem malformed_envelope_statuses :
    (∀ (net : Net) (body : WABody),
      (WhatsAppController.handleWebhook net body).1.1 = 200 ∨
        (WhatsAppController.handleWebhook net body).1.1 = 404) ∧
    (∀ body : WABody,
      (WebhookController.handleWhatsAppWebhook body).1.1 = 200 ∨
        (WebhookController.handleWhatsAppWebhook body).1.1 = 404) ∧
    (∀ body : MetaBody, body.object ≠ "page" →
      WebhookController.handleFacebookWebhook body = (404, "Not Found")) ∧
    (∀ body : MetaBody, body.object = "page" → body.entry = none →
      WebhookController.handleFacebookWebhook body = (500, "Internal Server Error")) ∧
    (∀ body : MetaBody, body.object ≠ "instagram" →
      WebhookController.handleInstagramWebhook body = (404, "Not Found")) ∧
    (∀ body : MetaBody, body.object = "instagram" → body.entry = none →
      WebhookController.handleInstagramWebhook body = (500, "Internal Server Error")) ∧
    (∀ body : MetaBody, body.object ≠ "ad_account" →
      WebhookController.handleMetaPixelWebhook body = (404, "Not Found")) ∧
    (∀ body : MetaBody, body.object = "ad_account" → body.entry = none →
      WebhookController.handleMetaPixelWebhook body = (500, "Internal Server Error")) := by
  refine ⟨fun net body => ?_, fun body => ?_, fun body h => ?_, fun body h he => ?_,
    fun body h => ?_, fun body h he => ?_, fun body h => ?_, fun body h he => ?_⟩
  · simp only [WhatsAppController.handleWebhook]
    split <;> simp
  · simp only [WebhookController.handleWhatsAppWebhook]
    split <;> simp
  · simp [WebhookController.handleFacebookWebhook,
      WebhookController.verifyFacebookWebhookSignature, h]
  · simp [WebhookController.handleFacebookWebhook,
      WebhookController.verifyFacebookWebhookSignature, h, he]
  · simp [WebhookController.handleInstagramWebhook,
      WebhookController.verifyInstagramWebhookSignature, h]
  · simp [WebhookController.handleInstagramWebhook,
      WebhookController.verifyInstagramWebhookSignature, h, he]
  · simp [WebhookController.handleMetaPixelWebhook,
      WebhookController.verifyMetaPixelWebhookSignature, h]
  · simp [WebhookController.handleMetaPixelWebhook,
      WebhookController.verifyMetaPixelWebhookSignature, h, he]

/-- C7 amended, witness: concrete payloads for the WhatsApp 200-or-404
alternative, a Facebook 404 on a wrong discriminator, and an Instagram
500 on a matching discriminator with no entry list. -/
theorem malformed_envelope_statuses_witness :
    ((WhatsAppController.handleWebhook netNoPostFails ⟨"whatsapp_business_account", none⟩).1.1
        = 200 ∨
      (WhatsAppController.handleWebhook netNoPostFails ⟨"whatsapp_business_account", none⟩).1.1
        = 404) ∧
    WebhookController.handleFacebookWebhook ⟨"nope", none⟩ = (404, "Not Found") ∧
    WebhookController.handleInstagramWebhook ⟨"instagram", none⟩ =
      (500, "Internal Server Error") :=
  ⟨malformed_envelope_statuses.1 netNoPostFails ⟨"whatsapp_business_account", none⟩,
    malformed_envelope_statuses.2.2.1 ⟨"nope", none⟩ (by decide),
    malformed_envelope_statuses.2.2.2.2.2.1 ⟨"instagram", none⟩ rfl rfl⟩
